import Mathlib

/-!
Shallow embedding of the Kythe Rust extractor adapter
(kythe/rust/extractor/src/lib.rs): the argument-validating forwarder
`generate_analysis` and the `CallbackShim` lifecycle callback with its
two hooks (`config` and `after_analysis`).

The rustc driver itself is external to the repository; it is modelled as
an opaque oracle (`DriverModel`) that, given the argument list, the
registered callback and the current process state, yields a new state and
one of the three observable outcomes of `RunCompiler::run` as seen
through `rustc_driver::catch_fatal_errors`:
  - `ok`            : `run()` returned `Ok(())`
  - `errorReported` : `run()` returned `Err(ErrorGuaranteed)` (diagnostics
                      were reported; a normal, non-fatal error signal)
  - `fatal`         : a fatal error / abrupt failure escaped `run()` and was
                      caught by `catch_fatal_errors`.
Process-wide environment state is an association list of variables, and the
hook bodies record their observable effects as an ordered event trace.
-/

/-- Process-wide environment state: variable name to value. -/
abbrev EnvState : Type := List (String × String)

/-- Model of `std::env::set_var`: overwrite the binding for key `k`. -/
def setVar (env : EnvState) (k v : String) : EnvState :=
  (k, v) :: (List.filter (fun p => p.1 ≠ k) env)

/-- Model of environment lookup (`std::env::var`). -/
def getVar (env : EnvState) (k : String) : Option String :=
  (List.find? (fun p => p.1 == k) env).map Prod.snd

/-- The `rustc_driver::Compilation` signal a callback returns. -/
inductive Compilation : Type
  | Continue : Compilation
  | Stop : Compilation
deriving DecidableEq, Repr

/-- The callback state registered with the driver
(struct `CallbackShim`): an output directory (a `PathBuf`, modelled as a
path string) and an output file name. -/
structure CallbackShim : Type where
  output_dir : String
  output_file_name : String
deriving DecidableEq, Repr

/-- `CallbackShim::new`. -/
def CallbackShim.new (output_dir : String) (output_file_name : String) :
    CallbackShim :=
  { output_dir := output_dir, output_file_name := output_file_name }

/-- The unstable options of the driver configuration: the
`save_analysis` flag the hook writes, together with all the remaining
fields, abstracted as a value of an arbitrary type `α`. -/
structure UnstableOpts (α : Type) : Type where
  save_analysis : Bool
  restUnstable : α
deriving DecidableEq, Repr

/-- The driver session options: the unstable options plus all remaining
fields, abstracted as `β`. -/
structure SessionOpts (α β : Type) : Type where
  unstable_opts : UnstableOpts α
  restOpts : β
deriving DecidableEq, Repr

/-- The driver's `interface::Config` object: session options plus all
remaining fields, abstracted as `γ`. -/
structure InterfaceConfig (α β γ : Type) : Type where
  opts : SessionOpts α β
  restConfig : γ
deriving DecidableEq, Repr

/-- `CallbackShim::config`: the configuration-time hook. The source body
is the single assignment `config.opts.unstable_opts.save_analysis = true`;
the hook receives `&mut self`, so the model returns the (unchanged) shim
together with the updated configuration. -/
def CallbackShim.config (shim : CallbackShim)
    (c : InterfaceConfig α β γ) : CallbackShim × InterfaceConfig α β γ :=
  (shim,
    { c with
      opts :=
        { c.opts with
          unstable_opts :=
            { c.opts.unstable_opts with save_analysis := true } } })

/-- The driver's query interface (`Queries`), restricted to what the hook
reads: `crate_name()` and `global_ctxt()`, each of which is unwrapped in
the source and so may fail fatally (`none`). The global context is opaque
to the adapter and modelled as a token. -/
structure Queries : Type where
  crate_name : Option String
  global_ctxt : Option Unit
deriving DecidableEq, Repr

/-- The `interface::Compiler` handle, restricted to what the hook reads:
the original input descriptor, opaque to the adapter. -/
structure CompilerIface : Type where
  input : String
deriving DecidableEq, Repr

/-- `rustc_save_analysis::DumpHandler` as constructed by
`DumpHandler::new(odir, analysis_name)`. -/
structure DumpHandler : Type where
  odir : Option String
  analysis_name : String
deriving DecidableEq, Repr

/-- `DumpHandler::new`. -/
def DumpHandler.new (odir : Option String) (analysis_name : String) :
    DumpHandler :=
  { odir := odir, analysis_name := analysis_name }

/-- The fixed JSON configuration string the hook writes into
`RUST_SAVE_ANALYSIS_CONFIG` (a string literal in the source). -/
def saveAnalysisConfig : String :=
  "\x7b\"output_file\":null,\"full_docs\":true,\"pub_only\":false,\"reachable_only\":false,\"distro_crate\":false,\"signatures\":false,\"borrow_data\":false\x7d"

/-- Observable effects of the post-analysis hook, in program order. -/
inductive Event : Type
  | readInput (input : String) : Event
  | readCrateName (crate_name : String) : Event
  | setEnv (key : String) (value : String) : Event
  | processCrate (crate_name : String) (input : String)
      (cfg : Option Unit) (handler : DumpHandler) : Event
deriving DecidableEq, Repr

/-- Result of one invocation of the post-analysis hook: the callback state
after the call, the environment state after the call, the ordered trace of
effects that occurred, and the returned `Compilation` signal (`none` when
one of the two `unwrap`s panicked, so the call never returned and the
fatal condition escapes to the crash-isolation boundary). -/
structure HookResult : Type where
  shim : CallbackShim
  env : EnvState
  events : List Event
  outcome : Option Compilation
deriving DecidableEq, Repr

/-- `CallbackShim::after_analysis`: read the input descriptor and the
resolved crate name, write the side-channel configuration record into the
environment, run `rustc_save_analysis::process_crate` with a fresh
`DumpHandler` bound to the shim's directory and file name and no directly
passed configuration, and return `Compilation::Stop`. -/
def CallbackShim.after_analysis (shim : CallbackShim)
    (compiler : CompilerIface) (queries : Queries) (env : EnvState) :
    HookResult :=
  let input := compiler.input
  match queries.crate_name with
  | none =>
      { shim := shim, env := env,
        events := [Event.readInput input], outcome := none }
  | some crate_name =>
      let env1 := setVar env "RUST_SAVE_ANALYSIS_CONFIG" saveAnalysisConfig
      match queries.global_ctxt with
      | none =>
          { shim := shim, env := env1,
            events :=
              [Event.readInput input, Event.readCrateName crate_name,
               Event.setEnv "RUST_SAVE_ANALYSIS_CONFIG" saveAnalysisConfig],
            outcome := none }
      | some _ =>
          { shim := shim, env := env1,
            events :=
              [Event.readInput input, Event.readCrateName crate_name,
               Event.setEnv "RUST_SAVE_ANALYSIS_CONFIG" saveAnalysisConfig,
               Event.processCrate crate_name input none
                 (DumpHandler.new (some shim.output_dir)
                   shim.output_file_name)],
            outcome := some Compilation.Stop }

/-- Process-wide state observable by `generate_analysis` and the driver:
the environment, the number of times the compiler driver has been invoked,
and the callbacks that have been registered with it. -/
structure World : Type where
  env : EnvState
  driverInvocations : Nat
  registeredCallbacks : List CallbackShim
deriving DecidableEq, Repr

/-- Outcome of `RunCompiler::run` as seen through
`rustc_driver::catch_fatal_errors`. -/
inductive RunOutcome : Type
  | ok : RunOutcome
  | errorReported : RunOutcome
  | fatal : RunOutcome
deriving DecidableEq, Repr

/-- The external rustc driver, modelled as an oracle: given the argument
list, the registered callback and the process state, it yields the process
state after the run and the run's outcome. -/
def DriverModel : Type :=
  List String → CallbackShim → World → World × RunOutcome

/-- Model of `RunCompiler::new(&arguments, &mut shim).run()`: registers
the callback, counts the driver invocation, and defers to the driver
oracle. -/
def runCompiler (driver : DriverModel) (arguments : List String)
    (shim : CallbackShim) (w : World) : World × RunOutcome :=
  let w1 : World :=
    { w with
      driverInvocations := w.driverInvocations + 1,
      registeredCallbacks := w.registeredCallbacks ++ [shim] }
  driver arguments shim w1

/-- `rustc_driver::catch_fatal_errors` applied to the run's outcome:
a fatal failure becomes the outer error; otherwise the inner result of
`run()` is returned intact inside the outer `Ok`. -/
def catch_fatal_errors (outcome : RunOutcome) :
    Except Unit (Except Unit Unit) :=
  match outcome with
  | RunOutcome.fatal => Except.error ()
  | RunOutcome.ok => Except.ok (Except.ok ())
  | RunOutcome.errorReported => Except.ok (Except.error ())

/-- `generate_analysis(rustc_arguments, output_dir, output_file_name)`:
validate the arguments, build a `CallbackShim`, run the driver inside the
crash-isolation boundary, and map the result exactly as the source does
(`.map(|_| ()).map_err(|_| "A compiler error occurred")?` followed by
`Ok(())`). -/
def generate_analysis (driver : DriverModel)
    (rustc_arguments : List String) (output_dir : String)
    (output_file_name : String) (w : World) :
    World × Except String Unit :=
  match rustc_arguments.get? 0 with
  | none => (w, Except.error "Arguments vector should not be empty")
  | some first_arg =>
      if first_arg ≠ "" then
        (w, Except.error "The first argument must be an empty string")
      else
        let callback_shim := CallbackShim.new output_dir output_file_name
        let run := runCompiler driver rustc_arguments callback_shim w
        match catch_fatal_errors run.2 with
        | Except.error _ =>
            (run.1, Except.error "A compiler error occurred")
        | Except.ok _ => (run.1, Except.ok ())

/-- A driver oracle whose run always reports diagnostics and returns the
non-fatal error signal. -/
def driverReportsError : DriverModel :=
  fun _ _ w => (w, RunOutcome.errorReported)

/-- A driver oracle whose run always fails fatally. -/
def driverFatal : DriverModel :=
  fun _ _ w => (w, RunOutcome.fatal)

/-- A driver oracle whose run always succeeds. -/
def driverOk : DriverModel :=
  fun _ _ w => (w, RunOutcome.ok)

/-- An empty initial process state. -/
def emptyWorld : World :=
  { env := ([] : List (String × String)),
    driverInvocations := 0, registeredCallbacks := [] }

/-- C1: whenever the post-analysis hook runs to completion (both driver
queries succeed), its effects occur in this order: the input descriptor
and the resolved crate name are read, the side-channel override record is
written into the environment, the analysis-dump routine is invoked, and
the hook returns the `Stop` signal. -/
theorem after_analysis_effect_order (shim : CallbackShim)
    (compiler : CompilerIface) (queries : Queries) (env : EnvState)
    (c : String) (h1 : queries.crate_name = some c)
    (h2 : queries.global_ctxt = some ()) :
    (shim.after_analysis compiler queries env).events =
      [Event.readInput compiler.input, Event.readCrateName c,
       Event.setEnv "RUST_SAVE_ANALYSIS_CONFIG" saveAnalysisConfig,
       Event.processCrate c compiler.input none
         (DumpHandler.new (some shim.output_dir) shim.output_file_name)] ∧
    (shim.after_analysis compiler queries env).outcome =
      some Compilation.Stop := by
  simp [CallbackShim.after_analysis, h1, h2]

/-- Witness for C1 at a concrete shim, compiler and query state. -/
theorem after_analysis_effect_order_witness :
    ((CallbackShim.new "out" "name").after_analysis (CompilerIface.mk "in")
        (Queries.mk (some "foo") (some ())) []).events =
      [Event.readInput "in", Event.readCrateName "foo",
       Event.setEnv "RUST_SAVE_ANALYSIS_CONFIG" saveAnalysisConfig,
       Event.processCrate "foo" "in" none
         (DumpHandler.new (some "out") "name")] ∧
    ((CallbackShim.new "out" "name").after_analysis (CompilerIface.mk "in")
        (Queries.mk (some "foo") (some ())) []).outcome =
      some Compilation.Stop :=
  after_analysis_effect_order (CallbackShim.new "out" "name")
    (CompilerIface.mk "in") (Queries.mk (some "foo") (some ())) [] "foo"
    rfl rfl

/-- C2: on an empty argument list, `generate_analysis` returns the
invalid-arguments error for an empty vector, with the process state
untouched (in particular the driver is never invoked). -/
theorem generate_analysis_empty_args (driver : DriverModel)
    (d f : String) (w : World) :
    generate_analysis driver [] d f w =
      (w, Except.error "Arguments vector should not be empty") := rfl

/-- C3: on a non-empty argument list whose first element is not the empty
string, `generate_analysis` returns the invalid-arguments error for a bad
first element, with the process state untouched. -/
theorem generate_analysis_bad_first_arg (driver : DriverModel)
    (a : String) (args : List String) (d f : String) (w : World)
    (h : a ≠ "") :
    generate_analysis driver (a :: args) d f w =
      (w, Except.error "The first argument must be an empty string") := by
  simp [generate_analysis, h]

/-- Witness for C3 at a concrete argument list. -/
theorem generate_analysis_bad_first_arg_witness :
    generate_analysis driverOk ["x"] "out" "name" emptyWorld =
      (emptyWorld,
        Except.error "The first argument must be an empty string") :=
  generate_analysis_bad_first_arg driverOk "x" [] "out" "name" emptyWorld
    (by decide)

/-- C4 counterexample: with valid arguments and a driver whose run reports
a compilation error through its returned error value (a non-fatal error
signal), `generate_analysis` returns `Ok(())`, not the
"A compiler error occurred" result: the `.map(|_| ())` in the source
discards the inner result of `RunCompiler::run`. -/
theorem generate_analysis_reported_error_not_surfaced :
    (generate_analysis driverReportsError [""] "out" "name" emptyWorld).2 =
      Except.ok () ∧
    (Except.ok () : Except String Unit) ≠
      Except.error "A compiler error occurred" := by
  constructor
  · rfl
  · simp

/-- C4 amended: for valid arguments the driver invocation is wrapped in
the crash-isolation boundary, and `generate_analysis` returns the
"A compiler error occurred" result exactly when the wrapped invocation
raised a fatal/abrupt failure; otherwise it returns `Ok(())` — including
when the driver merely reported a compilation error through the run's
returned error value, which the result mapping discards. -/
theorem generate_analysis_crash_boundary (driver : DriverModel)
    (rest : List String) (d f : String) (w : World) :
    (generate_analysis driver ("" :: rest) d f w).2 =
      (if (runCompiler driver ("" :: rest) (CallbackShim.new d f) w).2 =
            RunOutcome.fatal
        then Except.error "A compiler error occurred"
        else Except.ok ()) := by
  cases h : (runCompiler driver ("" :: rest) (CallbackShim.new d f) w).2 <;>
    simp [generate_analysis, catch_fatal_errors, h]

/-- C5: whenever the post-analysis hook reaches the environment write
(the crate-name query succeeded), the record it stores under
`RUST_SAVE_ANALYSIS_CONFIG` is exactly the fixed JSON configuration with
`full_docs` true and every filter off, independent of the shim, the
compiler handle and the queries. -/
theorem after_analysis_env_record (shim : CallbackShim)
    (compiler : CompilerIface) (queries : Queries) (env : EnvState)
    (c : String) (h : queries.crate_name = some c) :
    (shim.after_analysis compiler queries env).env =
      setVar env "RUST_SAVE_ANALYSIS_CONFIG"
        "\x7b\"output_file\":null,\"full_docs\":true,\"pub_only\":false,\"reachable_only\":false,\"distro_crate\":false,\"signatures\":false,\"borrow_data\":false\x7d" ∧
    getVar (shim.after_analysis compiler queries env).env
        "RUST_SAVE_ANALYSIS_CONFIG" =
      some "\x7b\"output_file\":null,\"full_docs\":true,\"pub_only\":false,\"reachable_only\":false,\"distro_crate\":false,\"signatures\":false,\"borrow_data\":false\x7d" := by
  cases h2 : queries.global_ctxt <;>
    simp [CallbackShim.after_analysis, h, h2, saveAnalysisConfig, getVar,
      setVar]

/-- Witness for C5 at a concrete shim and query state. -/
theorem after_analysis_env_record_witness :
    ((CallbackShim.new "out" "name").after_analysis (CompilerIface.mk "in")
        (Queries.mk (some "foo") (some ())) []).env =
      setVar [] "RUST_SAVE_ANALYSIS_CONFIG"
        "\x7b\"output_file\":null,\"full_docs\":true,\"pub_only\":false,\"reachable_only\":false,\"distro_crate\":false,\"signatures\":false,\"borrow_data\":false\x7d" ∧
    getVar ((CallbackShim.new "out" "name").after_analysis
        (CompilerIface.mk "in") (Queries.mk (some "foo") (some ())) []).env
        "RUST_SAVE_ANALYSIS_CONFIG" =
      some "\x7b\"output_file\":null,\"full_docs\":true,\"pub_only\":false,\"reachable_only\":false,\"distro_crate\":false,\"signatures\":false,\"borrow_data\":false\x7d" :=
  after_analysis_env_record (CallbackShim.new "out" "name")
    (CompilerIface.mk "in") (Queries.mk (some "foo") (some ())) [] "foo" rfl

/-- C6: the configuration-time hook sets the `save_analysis` flag to true
and leaves every other part of the configuration object (and the callback
state) unchanged. -/
theorem config_sets_only_save_analysis {α β γ : Type} (shim : CallbackShim)
    (c : InterfaceConfig α β γ) :
    (shim.config c).2.opts.unstable_opts.save_analysis = true ∧
    (shim.config c).2.opts.unstable_opts.restUnstable =
      c.opts.unstable_opts.restUnstable ∧
    (shim.config c).2.opts.restOpts = c.opts.restOpts ∧
    (shim.config c).2.restConfig = c.restConfig := by
  simp [CallbackShim.config]

/-- C7: on any argument list violating the precondition (empty, or with a
non-empty first element), `generate_analysis` returns a validation error
with no side effects: the environment is not written, no callback is
registered, and the driver is not invoked. -/
theorem generate_analysis_invalid_args_pure (driver : DriverModel)
    (args : List String) (d f : String) (w : World)
    (h : args = [] ∨ ∃ a rest, args = a :: rest ∧ a ≠ "") :
    (generate_analysis driver args d f w).1.env = w.env ∧
    (generate_analysis driver args d f w).1.driverInvocations =
      w.driverInvocations ∧
    (generate_analysis driver args d f w).1.registeredCallbacks =
      w.registeredCallbacks ∧
    ∃ msg, (generate_analysis driver args d f w).2 = Except.error msg := by
  rcases h with h | ⟨a, rest, h, ha⟩ <;> subst h
  · exact ⟨rfl, rfl, rfl, "Arguments vector should not be empty", rfl⟩
  · refine ⟨?_, ?_, ?_, "The first argument must be an empty string", ?_⟩ <;>
      simp [generate_analysis, ha]

/-- Witness for C7 at a concrete invalid argument list. -/
theorem generate_analysis_invalid_args_pure_witness :
    (generate_analysis driverOk ["x"] "out" "name" emptyWorld).1.env =
      emptyWorld.env ∧
    (generate_analysis driverOk ["x"] "out" "name"
        emptyWorld).1.driverInvocations = emptyWorld.driverInvocations ∧
    (generate_analysis driverOk ["x"] "out" "name"
        emptyWorld).1.registeredCallbacks = emptyWorld.registeredCallbacks ∧
    ∃ msg, (generate_analysis driverOk ["x"] "out" "name" emptyWorld).2 =
      Except.error msg :=
  generate_analysis_invalid_args_pure driverOk ["x"] "out" "name" emptyWorld
    (Or.inr ⟨"x", [], rfl, by decide⟩)

/-- C8 counterexample: `generate_analysis` produces three pairwise
distinct error values, two of them for the violated argument-list
precondition (empty vector versus non-empty first element) — so a third
distinguishable error value exists beyond the two the claim allows. -/
theorem generate_analysis_three_error_values :
    (generate_analysis driverOk [] "out" "name" emptyWorld).2 =
      Except.error "Arguments vector should not be empty" ∧
    (generate_analysis driverOk ["x"] "out" "name" emptyWorld).2 =
      Except.error "The first argument must be an empty string" ∧
    (generate_analysis driverFatal [""] "out" "name" emptyWorld).2 =
      Except.error "A compiler error occurred" ∧
    "Arguments vector should not be empty" ≠
      "The first argument must be an empty string" ∧
    "Arguments vector should not be empty" ≠ "A compiler error occurred" ∧
    "The first argument must be an empty string" ≠
      "A compiler error occurred" :=
  ⟨rfl, rfl, rfl, by decide, by decide, by decide⟩

/-- C8 amended: across all inputs `generate_analysis` surfaces exactly
three externally distinguishable error values: two for the violated
argument-list precondition ("Arguments vector should not be empty" for an
empty list and "The first argument must be an empty string" for a
non-empty first element) and one for a compiler error; no input produces
a fourth. -/
theorem generate_analysis_error_surface (driver : DriverModel)
    (args : List String) (d f : String) (w : World) (s : String)
    (h : (generate_analysis driver args d f w).2 = Except.error s) :
    s = "Arguments vector should not be empty" ∨
    s = "The first argument must be an empty string" ∨
    s = "A compiler error occurred" := by
  cases args with
  | nil =>
      simp [generate_analysis] at h
      exact Or.inl h.symm
  | cons a rest =>
      by_cases ha : a = ""
      · subst ha
        cases ho : (runCompiler driver ("" :: rest)
            (CallbackShim.new d f) w).2 <;>
          simp [generate_analysis, catch_fatal_errors, ho] at h
        exact Or.inr (Or.inr h.symm)
      · simp [generate_analysis, ha] at h
        exact Or.inr (Or.inl h.symm)

/-- Witness for C8 (amended) at a concrete input. -/
theorem generate_analysis_error_surface_witness :
    "Arguments vector should not be empty" =
      "Arguments vector should not be empty" ∨
    "Arguments vector should not be empty" =
      "The first argument must be an empty string" ∨
    "Arguments vector should not be empty" = "A compiler error occurred" :=
  generate_analysis_error_surface driverOk [] "out" "name" emptyWorld
    "Arguments vector should not be empty" rfl

/-- C10: the callback state fixed at construction is never mutated by
either hook, and the dump handler the post-analysis hook constructs is
bound to exactly the output directory and (non-empty) output file name
supplied at construction, the file name forwarded verbatim. -/
theorem callback_shim_state_preserved {α β γ : Type} (d f : String)
    (c : InterfaceConfig α β γ) (compiler : CompilerIface)
    (queries : Queries) (env : EnvState) (cn : String)
    (h1 : queries.crate_name = some cn)
    (h2 : queries.global_ctxt = some ()) (hf : f ≠ "") :
    ((CallbackShim.new d f).config c).1 = CallbackShim.new d f ∧
    (∀ (comp' : CompilerIface) (q' : Queries) (e' : EnvState),
      ((CallbackShim.new d f).after_analysis comp' q' e').shim =
        CallbackShim.new d f) ∧
    Event.processCrate cn compiler.input none (DumpHandler.new (some d) f) ∈
      ((CallbackShim.new d f).after_analysis compiler queries env).events := by
  refine ⟨rfl, ?_, ?_⟩
  · intro comp' q' e'
    rcases q' with ⟨cn', g'⟩
    cases cn' <;> cases g' <;> rfl
  · simp [CallbackShim.after_analysis, h1, h2, CallbackShim.new,
      DumpHandler.new]

/-- Witness for C10 at a concrete construction and query state. -/
theorem callback_shim_state_preserved_witness :
    ((CallbackShim.new "out" "name").config
        (⟨⟨⟨false, 0⟩, 0⟩, 0⟩ : InterfaceConfig Nat Nat Nat)).1 =
      CallbackShim.new "out" "name" ∧
    (∀ (comp' : CompilerIface) (q' : Queries) (e' : EnvState),
      ((CallbackShim.new "out" "name").after_analysis comp' q' e').shim =
        CallbackShim.new "out" "name") ∧
    Event.processCrate "foo" "in" none
        (DumpHandler.new (some "out") "name") ∈
      ((CallbackShim.new "out" "name").after_analysis (CompilerIface.mk "in")
        (Queries.mk (some "foo") (some ())) []).events :=
  callback_shim_state_preserved "out" "name"
    (⟨⟨⟨false, 0⟩, 0⟩, 0⟩ : InterfaceConfig Nat Nat Nat)
    (CompilerIface.mk "in") (Queries.mk (some "foo") (some ())) [] "foo"
    rfl rfl (by decide)
